import Mathlib

/-!
Shallow embedding of the homie-go device core (`device.go`, `config.go`).

The device-side MQTT traffic is modelled as an explicit event trace: each
call the Go code makes on the transport client (publish, subscribe,
disconnect) or on an external collaborator (a node's `Publish`/`Subscribe`,
a publisher callback) appends one `Event`.  Go panics (nil-pointer
dereference, `log.Panic`, explicit `panic`) are modelled as a `Fault`
value; an operation returns its final state together with `Option Fault`,
matching the fact that mutations made before a panic persist on the
heap-allocated device.

Go's `map[string]Node` registry is modelled as an association list in
insertion order; since Go map iteration order is unspecified, every
operation that ranges over the map takes the iteration order as an explicit
parameter, constrained in theorems to be a permutation of the registry.
Time is modelled as nanoseconds (`Nat`), mirroring `time.Time`/`Duration`.
-/

namespace Homie

/-- Broker configuration (`MqttConfig` in `config.go`); the three optional
callbacks are external user code, modelled by whether they are configured. -/
structure MqttConfig where
  url : String
  username : String
  password : String
  onConnectCb : Bool
  onConnectionLostCb : Bool
  onBroadcastCb : Bool
deriving DecidableEq, Repr

/-- Device configuration (`Config` in `config.go`). -/
structure Config where
  mqtt : MqttConfig
  baseTopic : String
  statsReportInterval : Int
deriving DecidableEq, Repr

/-- A node (external collaborator): name, type tag, back-reference to the
owning device (set by `SetDevice`), and whether a per-node publisher
callback is configured. -/
structure Node where
  name : String
  nodeType : String
  deviceName : Option String
  hasNodePublisher : Bool
deriving DecidableEq, Repr

/-- The transport connection handle (`MqttAdapter`): an opaque capability
with a liveness query. -/
structure Handle where
  connected : Bool
deriving DecidableEq, Repr

/-- The device (`device` struct in `device.go`).  `startupTime` and
`connectTime` are nanosecond timestamps; `connectTime = none` models the Go
zero time before the first connect callback.  `publisher` records whether a
device-level publisher callback is configured; `client = none` models the
nil connection handle before the first connect callback. -/
structure Device where
  name : String
  config : Config
  nodes : List Node
  startupTime : Nat
  connectTime : Option Nat
  publisher : Bool
  client : Option Handle
deriving DecidableEq, Repr

/-- One observable interaction of the core with its collaborators. -/
inductive Event where
  | publish (topic : String) (qos : Nat) (retained : Bool) (payload : String)
  | subscribe (topicPattern : String) (qos : Nat)
  | nodeSubscribe (name : String)
  | nodePublisherCb (name : String)
  | nodePublish (name : String)
  | devicePublisherCb
  | clientDisconnect (graceMs : Nat)
deriving DecidableEq, Repr

/-- A Go panic raised by the core. -/
inductive Fault where
  | nilClient
  | notConnected
  | duplicateNode (name : String)
  | publisherAlreadySet
deriving DecidableEq, Repr

/-- Device state together with the trace of transport/collaborator calls
made so far. -/
structure Sim where
  dev : Device
  events : List Event
deriving DecidableEq, Repr

/-- Result of a stateful operation: final state plus the panic that
interrupted it, if any. -/
abbrev SimRes := Sim × Option Fault

/-- Sequencing: run `f` only when the previous step did not panic; a panic
keeps the state reached so far (Go: mutations before a panic persist). -/
def bindS (r : SimRes) (f : Sim → SimRes) : SimRes :=
  match r with
  | (s, none) => f s
  | (s, some e) => (s, some e)

/-- Append one event to the trace. -/
def emit (s : Sim) (e : Event) : Sim :=
  { s with events := s.events ++ [e] }

/-- `HomieSpecVersion`, published on `$homie`.  Modelled from the spec: the
constant is defined outside the provided sources; the spec calls it the
"protocol version string".  Its concrete value is irrelevant to every claim. -/
def HomieSpecVersion : String := "2.0.0"

/-- `NewDevice` (`device.go`): fresh device, startup time recorded, nil
node map, nil client, zero connect time. -/
def NewDevice (name : String) (cfg : Config) (now : Nat) : Device :=
  { name := name
    config := cfg
    nodes := []
    startupTime := now
    connectTime := none
    publisher := false
    client := none }

/-- `Topic` (`device.go`): `fmt.Sprintf("%s%s/%s", baseTopic, name, part)`. -/
def Topic (d : Device) (part : String) : String :=
  d.config.baseTopic ++ d.name ++ "/" ++ part

/-- `GetNode` (`device.go`): map lookup, absent value for a missing name. -/
def GetNode (d : Device) (name : String) : Option Node :=
  d.nodes.find? (fun n => n.name = name)

/-- `AddNode` (`device.go`): sets the node's back-reference, panics
(`log.Panic`) on a duplicate name before touching the registry, otherwise
inserts and returns the node. -/
def AddNode (d : Device) (n : Node) : (Device × Node) × Option Fault :=
  let n := { n with deviceName := some d.name }
  if d.nodes.any (fun m => m.name = n.name) then
    ((d, n), some (Fault.duplicateNode n.name))
  else
    (({ d with nodes := d.nodes ++ [n] }, n), none)

/-- `SetDevicePublisher` (`device.go`): one-time assignment, panics on a
second configuration. -/
def SetDevicePublisher (d : Device) : Device × Option Fault :=
  if d.publisher then (d, some Fault.publisherAlreadySet)
  else ({ d with publisher := true }, none)

/-- `SendMessage` (`device.go`): `d.client.Publish(d.Topic(topic), 1, true,
message)`; a nil client handle faults (nil interface dereference). -/
def SendMessage (s : Sim) (topic message : String) : SimRes :=
  match s.dev.client with
  | none => (s, some Fault.nilClient)
  | some _ => (emit s (Event.publish (Topic s.dev topic) 1 true message), none)

/-- Elapsed whole seconds since startup:
`uint64(time.Since(startupTime).Seconds())`. -/
def uptimeSeconds (d : Device) (now : Nat) : Nat :=
  (now - d.startupTime) / 1000000000

/-- `PublishStats` (`device.go`): publishes the elapsed whole seconds on
`$stats/uptime`. -/
def PublishStats (s : Sim) (now : Nat) : SimRes :=
  SendMessage s "$stats/uptime" (toString (uptimeSeconds s.dev now))

/-- `initNodes` (`device.go`): for every node (in map iteration order
`order`) invoke `Subscribe`, then the per-node publisher callback when
configured. -/
def initNodes (order : List Node) (s : Sim) : Sim :=
  order.foldl
    (fun s n =>
      let s := emit s (Event.nodeSubscribe n.name)
      if n.hasNodePublisher then emit s (Event.nodePublisherCb n.name) else s)
    s

/-- `initDevice` (`device.go`): asserts the client is connected (nil client
faults on the `IsConnected` call, a disconnected client panics), publishes
the six metadata messages, `$nodes`, every node's `Publish`, the
device-level publisher callback, current stats, and finally subscribes to
the broadcast wildcard.  `orderNames` and `orderPub` are the iteration
orders of the two independent `for range` loops over the node map;
`localip` is the result of the external `outboundIP()`. -/
def initDevice (localip : String) (now : Nat)
    (orderNames orderPub : List Node) (s : Sim) : SimRes :=
  match s.dev.client with
  | none => (s, some Fault.nilClient)
  | some c =>
    if c.connected then
      bindS (SendMessage s "$homie" HomieSpecVersion) fun s =>
      bindS (SendMessage s "$name" s.dev.name) fun s =>
      bindS (SendMessage s "$localip" localip) fun s =>
      bindS (SendMessage s "$implementation" "homie-go") fun s =>
      bindS (SendMessage s "$state" "ready") fun s =>
      bindS (SendMessage s "$stats/interval"
        (toString s.dev.config.statsReportInterval)) fun s =>
      bindS (SendMessage s "$nodes"
        (String.intercalate "," (orderNames.map Node.name))) fun s =>
      let s := orderPub.foldl (fun s n => emit s (Event.nodePublish n.name)) s
      let s := if s.dev.publisher then emit s Event.devicePublisherCb else s
      bindS (PublishStats s now) fun s =>
      (emit s (Event.subscribe (s.dev.config.baseTopic ++ "$broadcast/+") 1), none)
    else (s, some Fault.notConnected)

/-- `OnConnect` (`device.go`): stores the handle, stamps `connectTime`,
runs `initNodes`, then `initDevice`.  `orderInit` is the iteration order of
`initNodes`'s loop over the node map. -/
def OnConnect (s : Sim) (h : Handle) (now : Nat) (localip : String)
    (orderInit orderNames orderPub : List Node) : SimRes :=
  let s := { s with dev := { s.dev with client := some h } }
  let s := { s with dev := { s.dev with connectTime := some now } }
  let s := initNodes orderInit s
  initDevice localip now orderNames orderPub s

/-- `Disconnect` (`device.go`): publishes `$state = "disconnected"`, then
tears the transport down with a 500 ms grace period; always reports
success when it does not panic. -/
def Disconnect (s : Sim) : SimRes :=
  bindS (SendMessage s "$state" "disconnected") fun s =>
  match s.dev.client with
  | none => (s, some Fault.nilClient)
  | some _ => (emit s (Event.clientDisconnect 500), none)

/-- The connect-relevant fields of `createMqttOptions` (`device.go`):
broker coordinates, client identity, last-will message, auto-reconnect. -/
structure MqttOptions where
  brokerURL : String
  username : String
  password : String
  clientID : String
  willTopic : String
  willPayload : String
  willQos : Nat
  willRetained : Bool
  autoReconnect : Bool
deriving DecidableEq, Repr

/-- `createMqttOptions` (`device.go`): the options handed to the transport
before any connect.  (TLS server-name and handler registration configure
external behaviour and carry no modelled data.) -/
def createMqttOptions (d : Device) : MqttOptions :=
  { brokerURL := d.config.mqtt.url
    username := d.config.mqtt.username
    password := d.config.mqtt.password
    clientID := d.name
    willTopic := Topic d "$state"
    willPayload := "lost"
    willQos := 1
    willRetained := true
    autoReconnect := true }

/-- Outcome of `Run` for its calling execution context. -/
inductive RunOutcome where
  | blocked
  | returned
deriving DecidableEq, Repr

/-- `Run` (`device.go`): calls `Connect`, discards its error result
(`connectError` is the outcome of the underlying connect attempt), then
parks forever on `select {}` when `block` is set. -/
def Run (d : Device) (connectError : Option String) (block : Bool) : RunOutcome :=
  if block then RunOutcome.blocked else RunOutcome.returned

/-- Go `strings.TrimPrefix`: drop `p` from the front of `s` when `s`
starts with it, otherwise return `s` unchanged (modelled on the character
sequence; Go slices the byte sequence at the same boundary). -/
def trimStart (s p : String) : String :=
  if s.data.take p.data.length = p.data then String.mk (s.data.drop p.data.length)
  else s

/-- The broadcast message handler closed over in `initDevice`
(`device.go`): when an on-broadcast callback is configured, strip
`baseTopic + "$broadcast/"` from the inbound topic and hand
`(level, payload)` to it; otherwise do nothing.  The returned value is
what reaches the callback (`none` = callback not invoked). -/
def onBroadcastMessage (cfg : Config) (msgTopic : String)
    (payload : List Nat) : Option (String × List Nat) :=
  if cfg.mqtt.onBroadcastCb then
    some (trimStart msgTopic (cfg.baseTopic ++ "$broadcast/"), payload)
  else none

/-! ### Specification-side descriptions of the bootstrap trace

These definitions describe the emitted trace as one flat concatenation;
the theorems below prove that the state-threaded implementation above
produces exactly this trace. -/

/-- Events of `initNodes`: per node, `Subscribe` then the per-node
publisher callback when configured. -/
def nodeInitEvents (o : List Node) : List Event :=
  o.flatMap fun n =>
    Event.nodeSubscribe n.name ::
      (if n.hasNodePublisher then [Event.nodePublisherCb n.name] else [])

/-- The six device-metadata publishes, in source order. -/
def metadataEvents (d : Device) (localip : String) : List Event :=
  [ Event.publish (Topic d "$homie") 1 true HomieSpecVersion
  , Event.publish (Topic d "$name") 1 true d.name
  , Event.publish (Topic d "$localip") 1 true localip
  , Event.publish (Topic d "$implementation") 1 true "homie-go"
  , Event.publish (Topic d "$state") 1 true "ready"
  , Event.publish (Topic d "$stats/interval") 1 true
      (toString d.config.statsReportInterval) ]

/-- The `$nodes` publish: comma-join of node names in iteration order. -/
def nodesListEvent (d : Device) (orderNames : List Node) : Event :=
  Event.publish (Topic d "$nodes") 1 true
    (String.intercalate "," (orderNames.map Node.name))

/-- Per-node `Publish` invocations, in iteration order. -/
def nodePublishEvents (o : List Node) : List Event :=
  o.map fun n => Event.nodePublish n.name

/-- The device-level publisher callback, when configured. -/
def devicePublisherEvents (d : Device) : List Event :=
  if d.publisher then [Event.devicePublisherCb] else []

/-- The `$stats/uptime` publish. -/
def uptimeEvent (d : Device) (now : Nat) : Event :=
  Event.publish (Topic d "$stats/uptime") 1 true (toString (uptimeSeconds d now))

/-- The broadcast wildcard subscription. -/
def broadcastSubEvent (d : Device) : Event :=
  Event.subscribe (d.config.baseTopic ++ "$broadcast/+") 1

/-- The full trace of one "became connected" event, as emitted by the code:
node subscriptions and per-node publisher callbacks first, then the device
metadata, `$nodes`, per-node `Publish`, the device publisher callback,
`$stats/uptime`, and the broadcast subscription. -/
def bootstrapEvents (d : Device) (localip : String) (now : Nat)
    (orderInit orderNames orderPub : List Node) : List Event :=
  nodeInitEvents orderInit
    ++ metadataEvents d localip
    ++ [nodesListEvent d orderNames]
    ++ nodePublishEvents orderPub
    ++ devicePublisherEvents d
    ++ [uptimeEvent d now, broadcastSubEvent d]

/-! ### The retained value observed on a topic

An MQTT broker keeps, per topic, the payload of the last retained publish;
a late subscriber observes exactly that value.  `lastPayloadOn` computes it
from a trace (every publish in this core is retained). -/

/-- One broker step: a publish on `topic` replaces the retained value. -/
def lastPayloadStep (topic : String) (acc : Option String) (e : Event) : Option String :=
  match e with
  | Event.publish t _ _ p => if t = topic then some p else acc
  | _ => acc

/-- The retained payload on `topic` after the trace `events`. -/
def lastPayloadOn (events : List Event) (topic : String) : Option String :=
  events.foldl (lastPayloadStep topic) none

/-- Whether an event is a publish on `topic`. -/
def pubOn (topic : String) (e : Event) : Bool :=
  match e with
  | Event.publish t _ _ _ => t = topic
  | _ => false

/-! ### Basic lemmas about the trace machinery -/

theorem emit_dev (s : Sim) (e : Event) : (emit s e).dev = s.dev := rfl

theorem emit_events (s : Sim) (e : Event) :
    (emit s e).events = s.events ++ [e] := rfl

theorem emit_eq (s : Sim) (e : Event) :
    emit s e = { dev := s.dev, events := s.events ++ [e] } := rfl

theorem initNodes_eq (o : List Node) (s : Sim) :
    initNodes o s = { dev := s.dev, events := s.events ++ nodeInitEvents o } := by
  induction o generalizing s with
  | nil => simp [initNodes, nodeInitEvents]
  | cons n o ih =>
    simp only [initNodes, List.foldl_cons] at *
    rw [ih]
    cases h : n.hasNodePublisher <;>
      simp [nodeInitEvents, emit_eq, h, List.append_assoc]

theorem pubFold_dev (o : List Node) (s : Sim) :
    (o.foldl (fun s n => emit s (Event.nodePublish n.name)) s).dev = s.dev := by
  induction o generalizing s with
  | nil => rfl
  | cons n o ih => simp only [List.foldl_cons]; rw [ih]; rfl

theorem pubFold_eq (o : List Node) (s : Sim) :
    o.foldl (fun s n => emit s (Event.nodePublish n.name)) s =
      { dev := s.dev, events := s.events ++ nodePublishEvents o } := by
  induction o generalizing s with
  | nil => simp [nodePublishEvents]
  | cons n o ih =>
    simp only [List.foldl_cons]
    rw [ih]
    simp [nodePublishEvents, emit_eq, List.append_assoc]

theorem sendMessage_of_client (s : Sim) (c : Handle) (t m : String)
    (h : s.dev.client = some c) :
    SendMessage s t m = (emit s (Event.publish (Topic s.dev t) 1 true m), none) := by
  simp [SendMessage, h]

/-- Closed form of `initDevice` on a connected client: the device state is
untouched and the trace grows by the metadata, `$nodes`, node publishes,
device publisher callback, uptime, and broadcast-subscription events. -/
theorem initDevice_eq (s : Sim) (c : Handle) (localip : String) (now : Nat)
    (oNames oPub : List Node) (hcl : s.dev.client = some c) (hc : c.connected = true) :
    initDevice localip now oNames oPub s =
      ({ dev := s.dev,
         events := s.events ++ (metadataEvents s.dev localip ++ [nodesListEvent s.dev oNames]
           ++ nodePublishEvents oPub ++ devicePublisherEvents s.dev
           ++ [uptimeEvent s.dev now, broadcastSubEvent s.dev]) }, none) := by
  cases hp : s.dev.publisher <;>
  · simp only [initDevice, hcl, hc, if_true, bindS, SendMessage, PublishStats,
      emit_dev, pubFold_dev, hp, Bool.false_eq_true, if_false]
    rw [pubFold_eq]
    simp [emit_eq, metadataEvents, nodesListEvent, nodePublishEvents,
      devicePublisherEvents, uptimeEvent, broadcastSubEvent, hp, List.append_assoc]

/-- Closed form of `OnConnect` on a connected handle: the handle is stored,
`connectTime` is stamped with the current time, and the full bootstrap
trace is appended. -/
theorem onConnect_eq (s : Sim) (h : Handle) (now : Nat) (localip : String)
    (oInit oNames oPub : List Node) (hc : h.connected = true) :
    OnConnect s h now localip oInit oNames oPub =
      ({ dev := { s.dev with client := some h, connectTime := some now },
         events := s.events ++
           bootstrapEvents { s.dev with client := some h, connectTime := some now }
             localip now oInit oNames oPub }, none) := by
  simp only [OnConnect]
  rw [initNodes_eq]
  rw [initDevice_eq _ h localip now oNames oPub rfl hc]
  simp [bootstrapEvents, List.append_assoc]

/-- `Topic` is injective in the path segment. -/
theorem topic_inj (d : Device) (p₁ p₂ : String) (h : Topic d p₁ = Topic d p₂) :
    p₁ = p₂ := by
  have hd := congrArg String.data h
  simp only [Topic, String.data_append, List.append_assoc] at hd
  exact String.ext
    (List.append_cancel_left (List.append_cancel_left (List.append_cancel_left hd)))

theorem topic_ne (d : Device) (p₁ p₂ : String) (h : p₁ ≠ p₂) :
    Topic d p₁ ≠ Topic d p₂ :=
  fun hc => h (topic_inj d p₁ p₂ hc)

theorem lastPayloadStep_of_not_pubOn (topic : String) (acc : Option String)
    (e : Event) (h : pubOn topic e = false) :
    lastPayloadStep topic acc e = acc := by
  cases e <;> simp_all [pubOn, lastPayloadStep]

theorem foldl_lastPayloadStep_of_no_pub (topic : String) (es : List Event)
    (h : ∀ e ∈ es, pubOn topic e = false) (acc : Option String) :
    es.foldl (lastPayloadStep topic) acc = acc := by
  induction es generalizing acc with
  | nil => rfl
  | cons e es ih =>
    simp only [List.foldl_cons]
    rw [lastPayloadStep_of_not_pubOn topic acc e (h e (List.mem_cons_self e es))]
    exact ih (fun e' he' => h e' (List.mem_cons_of_mem e he')) acc

theorem nodeInitEvents_no_pub (topic : String) (o : List Node) :
    ∀ e ∈ nodeInitEvents o, pubOn topic e = false := by
  intro e he
  rw [nodeInitEvents, List.mem_flatMap] at he
  obtain ⟨n, _, he⟩ := he
  rcases List.mem_cons.mp he with h | h
  · subst h; rfl
  · cases hn : n.hasNodePublisher <;> rw [hn] at h <;> simp at h
    subst h; rfl

theorem nodePublishEvents_no_pub (topic : String) (o : List Node) :
    ∀ e ∈ nodePublishEvents o, pubOn topic e = false := by
  intro e he
  rw [nodePublishEvents, List.mem_map] at he
  obtain ⟨n, _, he⟩ := he
  subst he; rfl

/-- After any trace extended by one bootstrap, the retained `$state`
payload is `"ready"`: the bootstrap's own `$state` publish wins over any
prior value and nothing later in the bootstrap touches `$state`. -/
theorem lastPayload_state_bootstrap (d : Device) (localip : String) (now : Nat)
    (oInit oNames oPub : List Node) (prior : List Event) :
    lastPayloadOn (prior ++ bootstrapEvents d localip now oInit oNames oPub)
      (Topic d "$state") = some "ready" := by
  set t := Topic d "$state" with ht
  rw [lastPayloadOn, bootstrapEvents]
  simp only [List.foldl_append]
  rw [foldl_lastPayloadStep_of_no_pub t (nodeInitEvents oInit)
    (nodeInitEvents_no_pub t oInit)]
  have hready : ∀ acc, (metadataEvents d localip).foldl (lastPayloadStep t) acc
      = some "ready" := by
    intro acc
    simp only [metadataEvents, List.foldl_cons, List.foldl_nil, lastPayloadStep]
    rw [ht]
    rw [if_neg (topic_ne d "$homie" "$state" (by decide)),
        if_neg (topic_ne d "$name" "$state" (by decide)),
        if_neg (topic_ne d "$localip" "$state" (by decide)),
        if_neg (topic_ne d "$implementation" "$state" (by decide)),
        if_neg (topic_ne d "$stats/interval" "$state" (by decide))]
    simp
  rw [hready]
  have hnodes : [nodesListEvent d oNames].foldl (lastPayloadStep t) (some "ready")
      = some "ready" := by
    simp only [List.foldl_cons, List.foldl_nil, nodesListEvent, lastPayloadStep, ht]
    rw [if_neg (topic_ne d "$nodes" "$state" (by decide))]
  rw [hnodes]
  rw [foldl_lastPayloadStep_of_no_pub t (nodePublishEvents oPub)
    (nodePublishEvents_no_pub t oPub)]
  have hdev : (devicePublisherEvents d).foldl (lastPayloadStep t) (some "ready")
      = some "ready" := by
    rw [devicePublisherEvents]
    cases hp : d.publisher <;> simp [lastPayloadStep]
  rw [hdev]
  simp only [List.foldl_cons, List.foldl_nil, uptimeEvent, broadcastSubEvent,
    lastPayloadStep, ht]
  rw [if_neg (topic_ne d "$stats/uptime" "$state" (by decide))]

/-- Closed form of `Disconnect` on a live client. -/
theorem disconnect_eq (s : Sim) (c : Handle) (hcl : s.dev.client = some c) :
    Disconnect s =
      ({ dev := s.dev, events := s.events ++
          [Event.publish (Topic s.dev "$state") 1 true "disconnected",
           Event.clientDisconnect 500] }, none) := by
  simp [Disconnect, bindS, SendMessage, hcl, emit_eq]

/-- After `Disconnect`, the retained `$state` payload is `"disconnected"`,
whatever was published before. -/
theorem lastPayload_state_disconnect (d : Device) (prior : List Event) :
    lastPayloadOn (prior ++
        [Event.publish (Topic d "$state") 1 true "disconnected",
         Event.clientDisconnect 500])
      (Topic d "$state") = some "disconnected" := by
  rw [lastPayloadOn, List.foldl_append]
  simp [lastPayloadStep]

/-! ### `String.intercalate` on character data -/

theorem go_data (s : String) (as : List String) (a : String) :
    (String.intercalate.go a s as).data =
      a.data ++ (as.map (fun x => s.data ++ x.data)).flatten := by
  induction as generalizing a with
  | nil => simp [String.intercalate.go]
  | cons b bs ih =>
    simp [String.intercalate.go, ih, String.data_append, List.append_assoc]

theorem intercalate_cons_eq_flatten (sep : List α) (x : List α) (xs : List (List α)) :
    List.intercalate sep (x :: xs) = x ++ (xs.map (fun l => sep ++ l)).flatten := by
  induction xs generalizing x with
  | nil => simp [List.intercalate]
  | cons y ys ih =>
    have h1 : List.intercalate sep (x :: y :: ys)
        = x ++ sep ++ List.intercalate sep (y :: ys) := by
      simp [List.intercalate, List.intersperse]
    rw [h1, ih y]
    simp [List.append_assoc]

/-- The characters of `String.intercalate` are the `List.intercalate` of
the member strings' characters. -/
theorem data_intercalate (s : String) (ss : List String) :
    (String.intercalate s ss).data =
      List.intercalate s.data (ss.map String.data) := by
  cases ss with
  | nil => rfl
  | cons a as =>
    rw [String.intercalate, go_data, List.map_cons, intercalate_cons_eq_flatten]
    rw [List.map_map]
    rfl

/-- `OnConnect` always leaves the device with the new handle stored and
`connectTime` stamped, whether or not the bootstrap panicked. -/
theorem onConnect_dev (s : Sim) (h : Handle) (now : Nat) (localip : String)
    (oInit oNames oPub : List Node) :
    ((OnConnect s h now localip oInit oNames oPub).1).dev
      = { s.dev with client := some h, connectTime := some now } := by
  cases hc : h.connected
  · simp [OnConnect, initNodes_eq, initDevice, hc]
  · rw [onConnect_eq s h now localip oInit oNames oPub hc]

/-- Go `strings.TrimPrefix` removes an exact leading occurrence. -/
theorem trimStart_append (p l : String) : trimStart (p ++ l) p = l := by
  simp only [trimStart, String.data_append, List.take_left, if_pos, List.drop_left]

/-! ### Concrete fixtures (the spec's end-to-end scenario) -/

/-- The spec's example configuration: `baseTopic="home/"`, interval 60. -/
def exampleConfig : Config :=
  { mqtt := { url := "ssl://broker.local:8883", username := "user", password := "pw",
              onConnectCb := false, onConnectionLostCb := false, onBroadcastCb := true }
    baseTopic := "home/"
    statsReportInterval := 60 }

/-- The spec's example node `"temp"`, with a per-node publisher callback. -/
def tempNode : Node :=
  { name := "temp", nodeType := "temperature", deviceName := none, hasNodePublisher := true }

/-- The spec's example device `sensor1` with the node `temp` registered. -/
def exampleDevice : Device :=
  ((AddNode (NewDevice "sensor1" exampleConfig 0) tempNode).1).1

def exampleSim : Sim := { dev := exampleDevice, events := [] }

/-- One bootstrap run of the example device, 5 ns after startup. -/
def exampleBoot : SimRes :=
  OnConnect exampleSim { connected := true } 5 "192.168.1.7"
    exampleDevice.nodes exampleDevice.nodes exampleDevice.nodes

/-! ### Claims -/

/-- C5: for every device name, base topic, and part string, `Topic part`
is exactly `baseTopic ++ deviceName ++ "/" ++ part`, with no validation or
normalization of any segment, and depends on no other device state. -/
theorem C5_topic_exact (d : Device) (part : String) :
    Topic d part = d.config.baseTopic ++ d.name ++ "/" ++ part ∧
    ∀ (nodes : List Node) (st : Nat) (ct : Option Nat) (pb : Bool) (cl : Option Handle),
      Topic { d with nodes := nodes, startupTime := st, connectTime := ct,
                     publisher := pb, client := cl } part = Topic d part :=
  ⟨rfl, fun _ _ _ _ _ => rfl⟩

/-- C9: `Run` discards the result of the connect attempt: with `block` it
parks the caller forever whatever the connect outcome was, without `block`
it returns, and its outcome carries no information about the error. -/
theorem C9_run_discards_connect_error (d : Device) (e₁ e₂ : Option String) (b : Bool) :
    Run d e₁ true = RunOutcome.blocked
    ∧ Run d e₁ false = RunOutcome.returned
    ∧ Run d e₁ b = Run d e₂ b :=
  ⟨rfl, rfl, rfl⟩

/-- C10: the connection handle is nil until the on-connect callback stores
it, and `SendMessage`, `PublishStats` and `Disconnect` all fault (nil
dereference) when invoked before any connect, instead of returning an
error. -/
theorem C10_nil_client_faults (s : Sim) (topic msg : String) (now : Nat)
    (hcl : s.dev.client = none) :
    (∀ name cfg t, (NewDevice name cfg t).client = none)
    ∧ SendMessage s topic msg = (s, some Fault.nilClient)
    ∧ PublishStats s now = (s, some Fault.nilClient)
    ∧ Disconnect s = (s, some Fault.nilClient)
    ∧ ∀ h now' lip o₁ o₂ o₃,
        ((OnConnect s h now' lip o₁ o₂ o₃).1).dev.client = some h := by
  refine ⟨fun _ _ _ => rfl, ?_, ?_, ?_, ?_⟩
  · simp [SendMessage, hcl]
  · simp [PublishStats, SendMessage, hcl]
  · simp [Disconnect, bindS, SendMessage, hcl]
  · intro h now' lip o₁ o₂ o₃
    rw [onConnect_dev]

/-- C10 witness: a freshly constructed device has a nil handle and all
three operations fault on it. -/
theorem C10_nil_client_faults_witness :
    SendMessage { dev := NewDevice "sensor1" exampleConfig 0, events := [] } "$state" "x"
        = ({ dev := NewDevice "sensor1" exampleConfig 0, events := [] }, some Fault.nilClient)
    ∧ PublishStats { dev := NewDevice "sensor1" exampleConfig 0, events := [] } 7
        = ({ dev := NewDevice "sensor1" exampleConfig 0, events := [] }, some Fault.nilClient)
    ∧ Disconnect { dev := NewDevice "sensor1" exampleConfig 0, events := [] }
        = ({ dev := NewDevice "sensor1" exampleConfig 0, events := [] }, some Fault.nilClient) := by
  have h := C10_nil_client_faults
    { dev := NewDevice "sensor1" exampleConfig 0, events := [] } "$state" "x" 7 rfl
  exact ⟨h.2.1, h.2.2.1, h.2.2.2.1⟩

/-- C3 counterexample: after a reconnect at time 2000 following a first
connect at time 1000, `connectTime` is 2000 — it was reassigned, refuting
"set exactly once, never reassigned after the first connect". -/
theorem C3_counterexample :
    ((OnConnect ((OnConnect exampleSim { connected := true } 1000 "192.168.1.7"
          exampleDevice.nodes exampleDevice.nodes exampleDevice.nodes).1)
        { connected := true } 2000 "192.168.1.7"
        exampleDevice.nodes exampleDevice.nodes exampleDevice.nodes).1).dev.connectTime
      = some 2000
    ∧ (some 2000 : Option Nat) ≠ some 1000 := by
  constructor
  · rw [onConnect_dev]
  · decide

/-- C3 amended: `connectTime` is (re)assigned on every "became connected"
event to that event's current time; after the k-th connect it holds the
k-th connect's timestamp, not the first one. -/
theorem C3_connecttime_reassigned (s : Sim) (h : Handle) (now : Nat)
    (localip : String) (oInit oNames oPub : List Node) :
    ((OnConnect s h now localip oInit oNames oPub).1).dev.connectTime = some now := by
  rw [onConnect_dev]

/-- C6: registering a node under an already-used name panics
(`log.Panic`), leaves the registry untouched so `GetNode` still returns
the originally registered node; a fresh name is inserted with the device
attached as its owner. -/
theorem C6_addnode_registry (d : Device) (n : Node) :
    ((∃ m ∈ d.nodes, m.name = n.name) →
        AddNode d n = ((d, { n with deviceName := some d.name }),
          some (Fault.duplicateNode n.name))
        ∧ GetNode ((AddNode d n).1.1) n.name = GetNode d n.name)
    ∧ ((∀ m ∈ d.nodes, m.name ≠ n.name) →
        AddNode d n
          = (({ d with nodes := d.nodes ++ [{ n with deviceName := some d.name }] },
              { n with deviceName := some d.name }), none)
        ∧ GetNode ((AddNode d n).1.1) n.name
            = some { n with deviceName := some d.name }) := by
  constructor
  · intro hdup
    have hany : d.nodes.any (fun m => m.name = n.name) = true := by
      rw [List.any_eq_true]
      obtain ⟨m, hm, he⟩ := hdup
      exact ⟨m, hm, by simp [he]⟩
    constructor
    · simp [AddNode, hany]
    · simp [AddNode, hany]
  · intro hfresh
    have hany : d.nodes.any (fun m => m.name = n.name) = false := by
      rw [List.any_eq_false]
      intro m hm
      simp [hfresh m hm]
    have heq : AddNode d n
        = (({ d with nodes := d.nodes ++ [{ n with deviceName := some d.name }] },
            { n with deviceName := some d.name }), none) := by
      simp [AddNode, hany]
    refine ⟨heq, ?_⟩
    rw [heq]
    simp only [GetNode, List.find?_append]
    have hnone : d.nodes.find? (fun m => m.name = n.name) = none := by
      rw [List.find?_eq_none]
      intro m hm
      simp [hfresh m hm]
    rw [hnone]
    simp

/-- C6 witness: on the example device, re-adding a node named `"temp"`
panics and leaves the registry entry intact, while adding `"hum"` inserts
it with the device attached. -/
theorem C6_addnode_registry_witness :
    (AddNode exampleDevice tempNode
        = ((exampleDevice, { tempNode with deviceName := some "sensor1" }),
          some (Fault.duplicateNode "temp"))
      ∧ GetNode ((AddNode exampleDevice tempNode).1.1) "temp"
          = GetNode exampleDevice "temp")
    ∧ (AddNode exampleDevice
          { name := "hum", nodeType := "humidity", deviceName := none,
            hasNodePublisher := false }
        = (({ exampleDevice with nodes := exampleDevice.nodes ++
              [{ name := "hum", nodeType := "humidity", deviceName := some "sensor1",
                 hasNodePublisher := false }] },
            { name := "hum", nodeType := "humidity", deviceName := some "sensor1",
              hasNodePublisher := false }), none)
      ∧ GetNode ((AddNode exampleDevice
            { name := "hum", nodeType := "humidity", deviceName := none,
              hasNodePublisher := false }).1.1) "hum"
          = some { name := "hum", nodeType := "humidity", deviceName := some "sensor1",
                   hasNodePublisher := false }) := by
  constructor
  · exact (C6_addnode_registry exampleDevice tempNode).1 (by decide)
  · exact (C6_addnode_registry exampleDevice
      { name := "hum", nodeType := "humidity", deviceName := none,
        hasNodePublisher := false }).2 (by decide)

/-- C1 counterexample: on the example device the bootstrap's very first
events are the node's `Subscribe` and its per-node publisher callback —
both happen before the `$homie` metadata publish, refuting the claimed
order (six metadata publishes first, node subscriptions only after the
node `Publish` step), and giving an observer the per-node publisher's
traffic before any metadata. -/
theorem C1_counterexample :
    exampleBoot.2 = none
    ∧ exampleBoot.1.events.take 3
      = [Event.nodeSubscribe "temp", Event.nodePublisherCb "temp",
         Event.publish "home/sensor1/$homie" 1 true HomieSpecVersion]
    ∧ exampleBoot.1.events.take 1
      ≠ [Event.publish "home/sensor1/$homie" 1 true HomieSpecVersion] := by
  refine ⟨rfl, rfl, ?_⟩
  decide

/-- C1 amended: on every "became connected" event the bootstrap executes,
in order: each registered node's `Subscribe` followed by its per-node
publisher callback; then the six device metadata publishes (`$homie`,
`$name`, `$localip`, `$implementation`, `$state="ready"`,
`$stats/interval`); then the `$nodes` list; then each node's `Publish`;
then the device-level publisher callback; then `$stats/uptime`; then the
broadcast subscription. -/
theorem C1_bootstrap_order (s : Sim) (h : Handle) (now : Nat) (localip : String)
    (oInit oNames oPub : List Node) (hc : h.connected = true) :
    (OnConnect s h now localip oInit oNames oPub).2 = none
    ∧ (OnConnect s h now localip oInit oNames oPub).1.events
      = s.events
        ++ nodeInitEvents oInit
        ++ metadataEvents { s.dev with client := some h, connectTime := some now } localip
        ++ [nodesListEvent { s.dev with client := some h, connectTime := some now } oNames]
        ++ nodePublishEvents oPub
        ++ devicePublisherEvents { s.dev with client := some h, connectTime := some now }
        ++ [uptimeEvent { s.dev with client := some h, connectTime := some now } now]
        ++ [broadcastSubEvent { s.dev with client := some h, connectTime := some now }] := by
  rw [onConnect_eq s h now localip oInit oNames oPub hc]
  simp [bootstrapEvents, List.append_assoc]

/-- C1 witness: the amended order on the example device's bootstrap. -/
theorem C1_bootstrap_order_witness :
    exampleBoot.2 = none
    ∧ exampleBoot.1.events
      = exampleSim.events
        ++ nodeInitEvents exampleDevice.nodes
        ++ metadataEvents
            { exampleSim.dev with client := some { connected := true }, connectTime := some 5 }
            "192.168.1.7"
        ++ [nodesListEvent
            { exampleSim.dev with client := some { connected := true }, connectTime := some 5 }
            exampleDevice.nodes]
        ++ nodePublishEvents exampleDevice.nodes
        ++ devicePublisherEvents
            { exampleSim.dev with client := some { connected := true }, connectTime := some 5 }
        ++ [uptimeEvent
            { exampleSim.dev with client := some { connected := true }, connectTime := some 5 } 5]
        ++ [broadcastSubEvent
            { exampleSim.dev with client := some { connected := true }, connectTime := some 5 }] :=
  C1_bootstrap_order exampleSim { connected := true } 5 "192.168.1.7"
    exampleDevice.nodes exampleDevice.nodes exampleDevice.nodes rfl

/-- A second fixture: the same device with two registered nodes `a`, `b`. -/
def nodeA : Node :=
  { name := "a", nodeType := "t", deviceName := none, hasNodePublisher := false }

def nodeB : Node :=
  { name := "b", nodeType := "t", deviceName := none, hasNodePublisher := false }

def twoNodeDevice : Device :=
  ((AddNode ((AddNode (NewDevice "sensor1" exampleConfig 0) nodeA).1).1 nodeB).1).1

def twoSim : Sim := { dev := twoNodeDevice, events := [] }

/-- C2 counterexample: the registry `{a, b}` admits two map iteration
orders (both permutations of the stored nodes); one bootstrap publishes
`$nodes = "a,b"`, the other `$nodes = "b,a"` — two runs over the same
registered node set are not byte-identical, refuting determinism in the
node set. -/
theorem C2_counterexample :
    twoNodeDevice.nodes.reverse.Perm twoNodeDevice.nodes
    ∧ Event.publish "home/sensor1/$nodes" 1 true "a,b"
        ∈ (OnConnect twoSim { connected := true } 5 "192.168.1.7"
            twoNodeDevice.nodes twoNodeDevice.nodes twoNodeDevice.nodes).1.events
    ∧ Event.publish "home/sensor1/$nodes" 1 true "b,a"
        ∈ (OnConnect twoSim { connected := true } 5 "192.168.1.7"
            twoNodeDevice.nodes twoNodeDevice.nodes.reverse twoNodeDevice.nodes).1.events
    ∧ Event.publish "home/sensor1/$nodes" 1 true "a,b"
        ∉ (OnConnect twoSim { connected := true } 5 "192.168.1.7"
            twoNodeDevice.nodes twoNodeDevice.nodes.reverse twoNodeDevice.nodes).1.events
    ∧ ("a,b" : String) ≠ "b,a" := by
  decide

/-- C2 amended: the `$nodes` payload is the comma-join of the registered
node names in the map's iteration order — some permutation of the node
set, so the multiset of names (and freedom from duplicates) is determined
by the registry, and splitting the payload on `','` recovers exactly the
names (no trailing separator); the byte order, however, may differ between
two runs over the same registry. -/
theorem C2_nodes_payload (s : Sim) (h : Handle) (now : Nat) (localip : String)
    (oInit oNames oPub : List Node) (hc : h.connected = true)
    (hperm : oNames.Perm s.dev.nodes) :
    Event.publish (Topic s.dev "$nodes") 1 true
        (String.intercalate "," (oNames.map Node.name))
      ∈ (OnConnect s h now localip oInit oNames oPub).1.events
    ∧ (oNames.map Node.name).Perm (s.dev.nodes.map Node.name)
    ∧ ((s.dev.nodes.map Node.name).Nodup → (oNames.map Node.name).Nodup)
    ∧ (oNames ≠ [] → (∀ m ∈ oNames, (',' : Char) ∉ m.name.data) →
        (String.intercalate "," (oNames.map Node.name)).data.splitOn ','
          = (oNames.map Node.name).map String.data) := by
  refine ⟨?_, hperm.map Node.name, fun hn => ((hperm.map Node.name).nodup_iff).mpr hn, ?_⟩
  · rw [onConnect_eq s h now localip oInit oNames oPub hc]
    simp [bootstrapEvents, nodesListEvent, Topic]
  · intro hne hcomma
    have hsep : (",".data) = [','] := rfl
    rw [data_intercalate, hsep]
    refine List.splitOn_intercalate _ ',' ?_ ?_
    · intro l hl
      obtain ⟨nm, hnm, rfl⟩ := List.mem_map.mp hl
      obtain ⟨m, hm, rfl⟩ := List.mem_map.mp hnm
      exact hcomma m hm
    · simpa using hne

/-- C2 witness: the amended statement on the two-node device with the
insertion order as iteration order. -/
theorem C2_nodes_payload_witness :
    Event.publish (Topic twoSim.dev "$nodes") 1 true
        (String.intercalate "," (twoNodeDevice.nodes.map Node.name))
      ∈ (OnConnect twoSim { connected := true } 5 "192.168.1.7"
          twoNodeDevice.nodes twoNodeDevice.nodes twoNodeDevice.nodes).1.events
    ∧ (twoNodeDevice.nodes.map Node.name).Perm (twoSim.dev.nodes.map Node.name)
    ∧ ((twoSim.dev.nodes.map Node.name).Nodup → (twoNodeDevice.nodes.map Node.name).Nodup)
    ∧ (twoNodeDevice.nodes ≠ [] → (∀ m ∈ twoNodeDevice.nodes, (',' : Char) ∉ m.name.data) →
        (String.intercalate "," (twoNodeDevice.nodes.map Node.name)).data.splitOn ','
          = (twoNodeDevice.nodes.map Node.name).map String.data) :=
  C2_nodes_payload twoSim { connected := true } 5 "192.168.1.7"
    twoNodeDevice.nodes twoNodeDevice.nodes twoNodeDevice.nodes rfl (List.Perm.refl _)

/-- C4 counterexample: the only subscription made by the example bootstrap
is `home/$broadcast/+`, directly under the base topic — it is not the
claimed `baseTopic ++ deviceName ++ "/" ++ "$broadcast/+"` and does not
lie in the device's topic namespace `home/sensor1/` at all. -/
theorem C4_counterexample :
    exampleBoot.1.events.filter
        (fun e => match e with | Event.subscribe _ _ => true | _ => false)
      = [Event.subscribe "home/$broadcast/+" 1]
    ∧ ("home/$broadcast/+" : String) ≠ "home/sensor1/" ++ "$broadcast/+"
    ∧ ("home/$broadcast/+" : String).data.take ("home/sensor1/" : String).data.length
        ≠ ("home/sensor1/" : String).data := by
  refine ⟨rfl, by decide, by decide⟩

/-- C4 amended: the broadcast wildcard subscription made at the end of
bootstrap is `baseTopic ++ "$broadcast/+"`, directly under the base topic
(not under the device name); on a matching message the handler strips
`baseTopic ++ "$broadcast/"` from the topic and passes the remaining
level together with the raw payload to the configured broadcast callback,
and does nothing when no callback is configured. -/
theorem C4_broadcast (s : Sim) (h : Handle) (now : Nat) (localip : String)
    (oInit oNames oPub : List Node) (cfg : Config) (level : String)
    (payload : List Nat) (hc : h.connected = true) :
    Event.subscribe (s.dev.config.baseTopic ++ "$broadcast/+") 1
      ∈ (OnConnect s h now localip oInit oNames oPub).1.events
    ∧ (cfg.mqtt.onBroadcastCb = true →
        onBroadcastMessage cfg (cfg.baseTopic ++ "$broadcast/" ++ level) payload
          = some (level, payload))
    ∧ (cfg.mqtt.onBroadcastCb = false →
        ∀ t, onBroadcastMessage cfg t payload = none) := by
  refine ⟨?_, ?_, ?_⟩
  · rw [onConnect_eq s h now localip oInit oNames oPub hc]
    simp [bootstrapEvents, broadcastSubEvent]
  · intro hcb
    rw [onBroadcastMessage, if_pos hcb, trimStart_append]
  · intro hcb t
    rw [onBroadcastMessage, if_neg (by simp [hcb])]

/-- C4 witness: on the example device the broadcast subscription event is
in the bootstrap trace; a message on `home/$broadcast/alert` reaches the
configured callback as level `"alert"` with its raw payload; with the
callback unconfigured nothing is forwarded. -/
theorem C4_broadcast_witness :
    Event.subscribe (exampleSim.dev.config.baseTopic ++ "$broadcast/+") 1
      ∈ exampleBoot.1.events
    ∧ onBroadcastMessage exampleConfig
        (exampleConfig.baseTopic ++ "$broadcast/" ++ "alert") [65, 66]
        = some ("alert", [65, 66])
    ∧ onBroadcastMessage
        { exampleConfig with mqtt := { exampleConfig.mqtt with onBroadcastCb := false } }
        "home/$broadcast/alert" [65, 66] = none := by
  have h₁ := C4_broadcast exampleSim { connected := true } 5 "192.168.1.7"
    exampleDevice.nodes exampleDevice.nodes exampleDevice.nodes exampleConfig
    "alert" [65, 66] rfl
  have h₂ := C4_broadcast exampleSim { connected := true } 5 "192.168.1.7"
    exampleDevice.nodes exampleDevice.nodes exampleDevice.nodes
    { exampleConfig with mqtt := { exampleConfig.mqtt with onBroadcastCb := false } }
    "alert" [65, 66] rfl
  exact ⟨h₁.1, h₁.2.1 rfl, h₂.2.2 rfl "home/$broadcast/alert"⟩

/-- C7: the last-will registered before any connect is exactly `"lost"`
(retained, QoS 1, on the device's `$state` topic); after a successful
connect event the retained `$state` payload is exactly `"ready"`; after
`Disconnect` it is exactly `"disconnected"`. -/
theorem C7_state_lifecycle :
    (∀ d : Device,
        (createMqttOptions d).willTopic = Topic d "$state"
        ∧ (createMqttOptions d).willPayload = "lost"
        ∧ (createMqttOptions d).willQos = 1
        ∧ (createMqttOptions d).willRetained = true)
    ∧ (∀ (s : Sim) (h : Handle) (now : Nat) (localip : String)
          (oInit oNames oPub : List Node), h.connected = true →
        lastPayloadOn ((OnConnect s h now localip oInit oNames oPub).1.events)
          (Topic s.dev "$state") = some "ready")
    ∧ (∀ (s : Sim) (c : Handle), s.dev.client = some c →
        lastPayloadOn ((Disconnect s).1.events) (Topic s.dev "$state")
          = some "disconnected") := by
  refine ⟨fun d => ⟨rfl, rfl, rfl, rfl⟩, ?_, ?_⟩
  · intro s h now localip oInit oNames oPub hc
    rw [onConnect_eq s h now localip oInit oNames oPub hc]
    exact lastPayload_state_bootstrap
      { s.dev with client := some h, connectTime := some now }
      localip now oInit oNames oPub s.events
  · intro s c hcl
    rw [disconnect_eq s c hcl]
    exact lastPayload_state_disconnect s.dev s.events

/-- C7 witness: on the example device the will is `"lost"`, the retained
`$state` is `"ready"` after bootstrap, and `"disconnected"` after a
`Disconnect` on a live client. -/
theorem C7_state_lifecycle_witness :
    (createMqttOptions exampleDevice).willTopic = Topic exampleDevice "$state"
    ∧ (createMqttOptions exampleDevice).willPayload = "lost"
    ∧ lastPayloadOn (exampleBoot.1.events) (Topic exampleDevice "$state") = some "ready"
    ∧ lastPayloadOn
        ((Disconnect { dev := { exampleDevice with client := some { connected := true } },
                       events := [] }).1.events)
        (Topic { exampleDevice with client := some { connected := true } } "$state")
        = some "disconnected" := by
  refine ⟨(C7_state_lifecycle.1 exampleDevice).1, (C7_state_lifecycle.1 exampleDevice).2.1,
    ?_, ?_⟩
  · exact C7_state_lifecycle.2.1 exampleSim { connected := true } 5 "192.168.1.7"
      exampleDevice.nodes exampleDevice.nodes exampleDevice.nodes rfl
  · exact C7_state_lifecycle.2.2
      { dev := { exampleDevice with client := some { connected := true } }, events := [] }
      { connected := true } rfl

/-- The device of the example, 0.5 s after an epoch-aligned startup, with
a live client: fixture for the stats claims. -/
def statsDevice : Device :=
  { exampleDevice with startupTime := 500000000, client := some { connected := true } }

def statsSim : Sim := { dev := statsDevice, events := [] }

/-- C8 counterexample: two `PublishStats` calls 0.2 s apart and during the
same wall-clock second (second 2) publish `"1"` and `"2"` — unequal —
because they straddle an elapsed-second boundary of a startup time that is
not second-aligned; this refutes "two calls within the same second publish
equal values". -/
theorem C8_counterexample :
    (2400000000 : Nat) / 1000000000 = 2600000000 / 1000000000
    ∧ (2600000000 : Nat) - 2400000000 < 1000000000
    ∧ PublishStats statsSim 2400000000
        = ({ dev := statsDevice,
             events := [Event.publish "home/sensor1/$stats/uptime" 1 true "1"] }, none)
    ∧ PublishStats statsSim 2600000000
        = ({ dev := statsDevice,
             events := [Event.publish "home/sensor1/$stats/uptime" 1 true "2"] }, none)
    ∧ ("1" : String) ≠ "2" := by
  refine ⟨by decide, by decide, rfl, rfl, by decide⟩

/-- C8 amended: `PublishStats` publishes the elapsed whole seconds since
startup, rendered as a decimal `Nat` (hence a non-negative integer
string), on `$stats/uptime`; the value never decreases across calls, and
two calls during the same elapsed whole second since startup publish equal
values (calls merely less than a second apart may straddle an
elapsed-second boundary and differ by one). -/
theorem C8_uptime_monotone (s : Sim) (c : Handle) (t₁ t₂ k : Nat)
    (hcl : s.dev.client = some c) :
    PublishStats s t₁
      = (emit s (Event.publish (Topic s.dev "$stats/uptime") 1 true
          (toString (uptimeSeconds s.dev t₁))), none)
    ∧ (t₁ ≤ t₂ → uptimeSeconds s.dev t₁ ≤ uptimeSeconds s.dev t₂)
    ∧ (uptimeSeconds s.dev t₁ = uptimeSeconds s.dev t₂ →
        toString (uptimeSeconds s.dev t₁) = toString (uptimeSeconds s.dev t₂))
    ∧ (s.dev.startupTime + k * 1000000000 ≤ t₁ →
        t₁ < s.dev.startupTime + (k + 1) * 1000000000 →
        uptimeSeconds s.dev t₁ = k) := by
  refine ⟨sendMessage_of_client s c _ _ hcl, ?_, fun he => congrArg toString he, ?_⟩
  · intro hle
    exact Nat.div_le_div_right (Nat.sub_le_sub_right hle _)
  · intro hlo hhi
    have h₁ : k * 1000000000 ≤ t₁ - s.dev.startupTime :=
      Nat.le_sub_of_add_le (by omega)
    have h₂ : t₁ - s.dev.startupTime < (k + 1) * 1000000000 := by omega
    exact Nat.div_eq_of_lt_le h₁ h₂

/-- C8 witness: on the stats fixture, the publish at t = 2.4 s is the
uptime publish, the value at 2.4 s is at most the value at 2.6 s, and
t = 2.4 s lies in elapsed second 1. -/
theorem C8_uptime_monotone_witness :
    PublishStats statsSim 2400000000
      = (emit statsSim (Event.publish (Topic statsSim.dev "$stats/uptime") 1 true
          (toString (uptimeSeconds statsSim.dev 2400000000))), none)
    ∧ uptimeSeconds statsSim.dev 2400000000 ≤ uptimeSeconds statsSim.dev 2600000000
    ∧ uptimeSeconds statsSim.dev 2400000000 = 1 := by
  have h := C8_uptime_monotone statsSim { connected := true } 2400000000 2600000000 1 rfl
  exact ⟨h.1, h.2.1 (by decide), h.2.2.2 (by decide) (by decide)⟩

end Homie
